import Mathlib

/-!
Verification of the hip-pain score calculator (`src/app.py`).

The program is a single-file form-to-prediction pipeline: given a patient
record (a dict from feature name to value) and a timepoint ("T3" or "T5"),
it predicts a pain score in [0, 8] using a trained model pair loaded from
disk, or a closed-form heuristic (demo mode) when artifacts are missing.

Shallow embedding conventions:
* Python floats are modelled as exact rationals (ℚ); all coefficients in the
  source are short decimals.
* A patient dict is an association list `List (String × Value)`; dict update
  is modelled by prepending (lookup takes the first binding, like a dict
  after `d[k] = v`).
* The filesystem is a predicate `String → Bool` (`os.path.exists`).
* The opaque joblib model/preprocessor pair is a pair of oracle functions;
  `none` models a raised exception inside the library call.
* A Python function that can raise returns `Except PredError _` (for
  `predict_with_model`) or `Option _` (for `predict_in_demo_mode`, whose only
  failure mode is a TypeError when a value stored under a numeric key is a
  string).
-/

namespace HipPain

/-- A value stored in the patient dict: a number or a categorical string. -/
inductive Value
  | num (q : ℚ)
  | str (s : String)
deriving DecidableEq, Repr

/-- `patient_data`: a Python dict from feature name to value. -/
abbrev PatientRecord := List (String × Value)

/-- Dict lookup: first binding wins (models `d[k]` / `k in d`). -/
def lookupVal : PatientRecord → String → Option Value
  | [], _ => none
  | (k, v) :: rest, key => if k = key then some v else lookupVal rest key

/-- `T3_IMPORTANT_FEATURES` from app.py lines 23–27. -/
def T3_IMPORTANT_FEATURES : List String :=
  ["LOS", "BMI_Current", "WOMACP_5", "WeightCurrent", "ICOAPC_3",
   "ICOAPC_1", "AgePreOp", "WOMACP_3", "WalkPain", "MobilityAidWalker",
   "Pre-Op Pain", "HeightCurrent", "ResultsRelief"]

/-- `T5_IMPORTANT_FEATURES` from app.py lines 29–33. -/
def T5_IMPORTANT_FEATURES : List String :=
  ["AgePreOp", "BMI_Current", "WeightCurrent", "HeightCurrent", "LOS",
   "WOMACP_5", "ResultsRelief", "ICOAPC_3", "Pre-Op Pain", "WalkPain",
   "Approach", "HeadSize"]

/-- `MODELS_DIR` from app.py line 35. -/
def MODELS_DIR : String := "streamlit_models"

/-- Python `str.upper()` restricted to the ASCII range used here. -/
def strUpper (s : String) : String := String.mk (s.data.map Char.toUpper)

/-- Python `str.lower()` restricted to the ASCII range used here. -/
def strLower (s : String) : String := String.mk (s.data.map Char.toLower)

/-- Path of the model artifact for a timepoint (app.py line 60). -/
def model_path (timepoint : String) : String :=
  MODELS_DIR ++ "/" ++ strLower timepoint ++ "_model.joblib"

/-- Path of the preprocessor artifact for a timepoint (app.py line 61). -/
def preprocessor_path (timepoint : String) : String :=
  MODELS_DIR ++ "/" ++ strLower timepoint ++ "_preprocessor.joblib"

/-- Python's binary `min`. -/
def pymin (a b : ℚ) : ℚ := if a ≤ b then a else b

/-- Python's binary `max`. -/
def pymax (a b : ℚ) : ℚ := if b ≤ a then a else b

/-- `np.clip(x, 0, 8)` and `max(0, min(8, x))` agree on scalars. -/
def clamp08 (x : ℚ) : ℚ := pymax 0 (pymin 8 x)

/-- `patient_data.get(k, d)` where the caller then does float arithmetic
with the result: absent key yields the default, a stored number yields that
number, and a stored string yields `none` (Python raises a TypeError when
the arithmetic hits it). -/
def getNumD (r : PatientRecord) (k : String) (d : ℚ) : Option ℚ :=
  match lookupVal r k with
  | none => some d
  | some (Value.num q) => some q
  | some (Value.str _) => none

/-- `predict_in_demo_mode` from app.py lines 125–147, faithfully: the `T3`
comparison is exact and case-sensitive, every other timepoint takes the T5
branch, missing keys take the inline defaults, and
`patient_data.get('Approach')` is compared to the string `'Posterior'`. -/
def predict_in_demo_mode (patient_data : PatientRecord) (timepoint : String) :
    Option ℚ :=
  if timepoint = "T3" then
    match getNumD patient_data "BMI_Current" 25,
          getNumD patient_data "AgePreOp" 65,
          getNumD patient_data "Pre-Op Pain" 5,
          getNumD patient_data "WalkPain" 5 with
    | some bmi, some age, some preop, some walk =>
        some (clamp08 (2.0 + 0.01 * bmi + 0.01 * age + 0.2 * preop - 0.1 * walk))
    | _, _, _, _ => none
  else
    match getNumD patient_data "BMI_Current" 25,
          getNumD patient_data "AgePreOp" 65,
          getNumD patient_data "Pre-Op Pain" 5 with
    | some bmi, some age, some preop =>
        let approach_factor : ℚ :=
          if lookupVal patient_data "Approach" = some (Value.str "Posterior")
          then 0.5 else 0
        some (clamp08 (1.5 + 0.008 * bmi + 0.005 * age + 0.15 * preop - approach_factor))
    | _, _, _ => none

/-- The opaque joblib artifact pair: `preprocessor.transform` and
`model.predict(...)[0]`; `none` models an exception raised inside the
library. -/
structure ModelArtifacts where
  transform : PatientRecord → Option (List ℚ)
  predict : List ℚ → Option ℚ

/-- Python `str(v)` as used by `astype(str)` on the HeadSize column. -/
def valToString : Value → String
  | Value.num q => toString q
  | Value.str s => s

/-- app.py lines 111–112: coerce the HeadSize entry to a string if present. -/
def coerce_headsize (r : PatientRecord) : PatientRecord :=
  r.map (fun kv => if kv.1 = "HeadSize" then (kv.1, Value.str (valToString kv.2)) else kv)

/-- Exceptions `predict_with_model` can raise, by source site:
`invalidTimepoint` (line 94), `artifactsMissing` (`FileNotFoundError`,
line 64), `missingFeatures` (line 105), `modelFailure` (any exception from
the preprocessor/model library calls). -/
inductive PredError
  | invalidTimepoint
  | artifactsMissing
  | missingFeatures (keys : List String)
  | modelFailure
deriving DecidableEq, Repr

/-- app.py line 100: the required feature list for a (normalized) timepoint. -/
def required_features (timepoint : String) : List String :=
  if timepoint = "T3" then T3_IMPORTANT_FEATURES else T5_IMPORTANT_FEATURES

/-- app.py line 103: required features absent from the record, in order. -/
def missing_features (r : PatientRecord) (timepoint : String) : List String :=
  (required_features timepoint).filter (fun f => (lookupVal r f).isNone)

/-- `predict_with_model` from app.py lines 75–123: uppercase the timepoint,
validate it, check both artifact files exist (`load_models`, lines 58–73),
check required features, coerce HeadSize, transform, predict, clip. The
`models` oracle gives the loaded artifact pair for a normalized timepoint. -/
def predict_with_model (fs : String → Bool) (models : String → ModelArtifacts)
    (patient_data : PatientRecord) (timepoint : String) : Except PredError ℚ :=
  if strUpper timepoint = "T3" ∨ strUpper timepoint = "T5" then
    if fs (model_path (strUpper timepoint)) &&
       fs (preprocessor_path (strUpper timepoint)) then
      if (missing_features patient_data (strUpper timepoint)).isEmpty then
        match (models (strUpper timepoint)).transform (coerce_headsize patient_data) with
        | none => Except.error PredError.modelFailure
        | some vec =>
          match (models (strUpper timepoint)).predict vec with
          | none => Except.error PredError.modelFailure
          | some raw => Except.ok (clamp08 raw)
      else
        Except.error
          (PredError.missingFeatures (missing_features patient_data (strUpper timepoint)))
    else Except.error PredError.artifactsMissing
  else Except.error PredError.invalidTimepoint

/-- `check_models_exist` from app.py lines 149–158: all four artifact files,
for both timepoints. -/
def check_models_exist (fs : String → Bool) : Bool :=
  fs (MODELS_DIR ++ "/t3_model.joblib") &&
  fs (MODELS_DIR ++ "/t3_preprocessor.joblib") &&
  fs (MODELS_DIR ++ "/t5_model.joblib") &&
  fs (MODELS_DIR ++ "/t5_preprocessor.joblib")

/-- app.py lines 171–179: demo mode is on when the models directory is
absent, or when not all four artifact files exist. -/
def use_demo_mode (fs : String → Bool) : Bool :=
  if fs MODELS_DIR then !check_models_exist fs else true

/-- The predict-button orchestration, app.py lines 258–270: in demo mode run
the heuristic (flag `true`); otherwise try the model and fall back to the
heuristic (flag `true`) on any exception. `none` models the outer handler
reporting an error instead of a prediction. -/
def runPrediction (fs : String → Bool) (models : String → ModelArtifacts)
    (patient_data : PatientRecord) (timepoint : String) : Option (ℚ × Bool) :=
  if use_demo_mode fs then
    (predict_in_demo_mode patient_data timepoint).map (fun q => (q, true))
  else
    match predict_with_model fs models patient_data timepoint with
    | Except.ok q => some (q, false)
    | Except.error _ =>
        (predict_in_demo_mode patient_data timepoint).map (fun q => (q, true))

/-- The categorical label from app.py lines 306–317. -/
def interpret_score (p : ℚ) : String :=
  if p ≤ 2 then "minimal"
  else if p ≤ 4 then "mild"
  else if p ≤ 6 then "moderate"
  else "severe"

/-- The four keys the demo heuristic reads numerically. -/
def demo_numeric_keys : List String :=
  ["BMI_Current", "AgePreOp", "Pre-Op Pain", "WalkPain"]

/-- The record is well-typed for the demo heuristic: no string value is
stored under a numeric demo key (matches the spec's data model, where these
features are numeric). -/
def WellTypedDemo (r : PatientRecord) : Prop :=
  ∀ k ∈ demo_numeric_keys, ∀ s, lookupVal r k ≠ some (Value.str s)

/-! Concrete inputs used to instantiate the theorems below. -/

/-- A filesystem on which every path exists. -/
def fsAll : String → Bool := fun _ => true

/-- A filesystem on which no path exists. -/
def fsNone : String → Bool := fun _ => false

/-- A filesystem holding the models directory and both T3 artifacts, but no
T5 artifact. -/
def fsT3only : String → Bool := fun p =>
  p = MODELS_DIR || p = MODELS_DIR ++ "/t3_model.joblib" ||
  p = MODELS_DIR ++ "/t3_preprocessor.joblib"

/-- An artifact-pair oracle whose library calls always raise. -/
def trivModels : String → ModelArtifacts :=
  fun _ => ⟨fun _ => none, fun _ => none⟩

/-- An artifact-pair oracle that succeeds and predicts the raw score 42. -/
def bigModels : String → ModelArtifacts :=
  fun _ => ⟨fun _ => some [], fun _ => some 42⟩

/-- A record holding every T3 feature, all set to 0. -/
def fullT3Record : PatientRecord :=
  T3_IMPORTANT_FEATURES.map (fun f => (f, Value.num 0))

/-! Helper lemmas. -/

theorem clamp08_nonneg (x : ℚ) : 0 ≤ clamp08 x := by
  unfold clamp08 pymax pymin
  split_ifs <;> linarith

theorem clamp08_le_eight (x : ℚ) : clamp08 x ≤ 8 := by
  unfold clamp08 pymax pymin
  split_ifs <;> linarith

theorem clamp08_mono {x y : ℚ} (h : x ≤ y) : clamp08 x ≤ clamp08 y := by
  unfold clamp08 pymax pymin
  split_ifs <;> linarith

theorem lookupVal_cons_self (k : String) (v : Value) (r : PatientRecord) :
    lookupVal ((k, v) :: r) k = some v := by
  simp [lookupVal]

theorem lookupVal_cons_ne (k key : String) (v : Value) (r : PatientRecord)
    (h : k ≠ key) : lookupVal ((k, v) :: r) key = lookupVal r key := by
  simp [lookupVal, h]

theorem getNumD_cons_self (k : String) (q : ℚ) (r : PatientRecord) (d : ℚ) :
    getNumD ((k, Value.num q) :: r) k d = some q := by
  simp [getNumD, lookupVal]

theorem getNumD_cons_ne (k key : String) (v : Value) (r : PatientRecord) (d : ℚ)
    (h : k ≠ key) : getNumD ((k, v) :: r) key d = getNumD r key d := by
  simp [getNumD, lookupVal, h]

theorem getNumD_isSome (r : PatientRecord) (k : String) (d : ℚ)
    (h : ∀ s, lookupVal r k ≠ some (Value.str s)) :
    ∃ q, getNumD r k d = some q := by
  unfold getNumD
  cases hv : lookupVal r k with
  | none => exact ⟨d, rfl⟩
  | some v =>
    cases v with
    | num q => exact ⟨q, rfl⟩
    | str s => exact absurd hv (h s)

theorem getNumD_of_absent (r : PatientRecord) (k : String) (d : ℚ)
    (h : lookupVal r k = none) : getNumD r k d = some d := by
  simp [getNumD, h]

/-- Evaluation of the T3 heuristic with the WalkPain entry overridden at the
front of the record. -/
theorem demoT3_walk (r : PatientRecord) (w : ℚ) :
    predict_in_demo_mode (("WalkPain", Value.num w) :: r) "T3" =
      match getNumD r "BMI_Current" 25, getNumD r "AgePreOp" 65,
            getNumD r "Pre-Op Pain" 5 with
      | some bmi, some age, some preop =>
          some (clamp08 (2.0 + 0.01 * bmi + 0.01 * age + 0.2 * preop - 0.1 * w))
      | _, _, _ => none := by
  unfold predict_in_demo_mode
  rw [if_pos rfl,
      getNumD_cons_ne _ _ _ _ _ (by decide),
      getNumD_cons_ne _ _ _ _ _ (by decide),
      getNumD_cons_ne _ _ _ _ _ (by decide),
      getNumD_cons_self]
  rcases getNumD r "BMI_Current" 25 with _ | bmi <;>
    rcases getNumD r "AgePreOp" 65 with _ | age <;>
    rcases getNumD r "Pre-Op Pain" 5 with _ | preop <;> rfl

/-! Claim theorems. -/

/-- C1: for every patient record and timepoint, a score returned by either
prediction strategy lies in [0, 8] inclusive — `predict_with_model` clamps
its raw model output and `predict_in_demo_mode` clamps its closed-form
result before returning. -/
theorem c1_score_clamped (fs : String → Bool) (models : String → ModelArtifacts)
    (r : PatientRecord) (tp : String) (q : ℚ)
    (h : predict_with_model fs models r tp = Except.ok q ∨
         predict_in_demo_mode r tp = some q) :
    0 ≤ q ∧ q ≤ 8 := by
  rcases h with h | h
  · unfold predict_with_model at h
    split at h
    · split at h
      · split at h
        · split at h
          · exact absurd h (by simp)
          · split at h
            · exact absurd h (by simp)
            · simp only [Except.ok.injEq] at h
              subst h
              exact ⟨clamp08_nonneg _, clamp08_le_eight _⟩
        · exact absurd h (by simp)
      · exact absurd h (by simp)
    · exact absurd h (by simp)
  · unfold predict_in_demo_mode at h
    split at h
    · split at h
      · simp only [Option.some.injEq] at h
        subst h
        exact ⟨clamp08_nonneg _, clamp08_le_eight _⟩
      · exact absurd h (by simp)
    · split at h
      · simp only [Option.some.injEq] at h
        subst h
        exact ⟨clamp08_nonneg _, clamp08_le_eight _⟩
      · exact absurd h (by simp)

/-- Witness for C1 at a concrete input: the heuristic on the empty record at
T3 returns 17/5 = 3.4, which the theorem places in [0, 8]. -/
theorem c1_score_clamped_witness : 0 ≤ (17 / 5 : ℚ) ∧ (17 / 5 : ℚ) ≤ 8 :=
  c1_score_clamped fsAll trivModels [] "T3" (17 / 5)
    (Or.inr (by norm_num +decide [predict_in_demo_mode, getNumD, lookupVal, clamp08, pymin, pymax]))

/-- C2 counterexample: on the unrecognized timepoint "T7" the heuristic
predictor does not fail — it silently takes the T5 branch and returns the
score 111/40 = 2.775 on the empty record. -/
theorem c2_counterexample : predict_in_demo_mode [] "T7" = some (111 / 40) := by
  norm_num +decide [predict_in_demo_mode, getNumD, lookupVal, clamp08, pymin, pymax]

/-- C2 (amended): for every timepoint whose uppercasing is neither "T3" nor
"T5", `predict_with_model` fails with the invalid-timepoint error; but
`predict_in_demo_mode` performs no timepoint validation — every timepoint
other than exactly "T3" is evaluated with the T5 formula and yields that
formula's result rather than an error. -/
theorem c2_invalid_timepoint (fs : String → Bool) (models : String → ModelArtifacts)
    (r : PatientRecord) (tp : String)
    (h : ¬(strUpper tp = "T3" ∨ strUpper tp = "T5")) :
    predict_with_model fs models r tp = Except.error PredError.invalidTimepoint ∧
    ∀ tp2 r2, tp2 ≠ "T3" →
      predict_in_demo_mode r2 tp2 = predict_in_demo_mode r2 "T5" := by
  constructor
  · unfold predict_with_model
    rw [if_neg h]
  · intro tp2 r2 h2
    unfold predict_in_demo_mode
    rw [if_neg h2, if_neg (by decide : ¬("T5" : String) = "T3")]

/-- Witness for C2's amended theorem at the concrete timepoint "T7". -/
theorem c2_invalid_timepoint_witness :
    predict_with_model fsAll trivModels [] "T7" =
      Except.error PredError.invalidTimepoint ∧
    predict_in_demo_mode [] "t3" = predict_in_demo_mode [] "T5" := by
  have h := c2_invalid_timepoint fsAll trivModels [] "T7" (by decide)
  exact ⟨h.1, h.2 "t3" [] (by decide)⟩

/-- C3 counterexample: on a filesystem holding the models directory and both
T3 artifacts but no T5 artifact, demo mode is triggered for the selected
timepoint T3 even though neither of the two T3 artifact files is absent, and
the orchestration returns the heuristic result flagged as demo. -/
theorem c3_counterexample :
    fsT3only (model_path "T3") = true ∧
    fsT3only (preprocessor_path "T3") = true ∧
    use_demo_mode fsT3only = true ∧
    runPrediction fsT3only trivModels [] "T3" = some (17 / 5, true) := by
  refine ⟨by decide, by decide, by decide, ?_⟩
  norm_num +decide [runPrediction, use_demo_mode, check_models_exist, fsT3only,
    MODELS_DIR, predict_in_demo_mode, getNumD, lookupVal, clamp08, pymin, pymax]

/-- C3 (amended): the demo-mode flag is set if and only if the models
directory is absent or at least one of the four artifact files — for both
timepoints, not only the selected one — is absent; in addition, even outside
demo mode the orchestration falls back to the heuristic whenever
`predict_with_model` fails. -/
theorem c3_demo_trigger (fs : String → Bool) (models : String → ModelArtifacts)
    (r : PatientRecord) (tp : String) :
    (use_demo_mode fs = true ↔
      (fs MODELS_DIR = false ∨
       fs (MODELS_DIR ++ "/t3_model.joblib") = false ∨
       fs (MODELS_DIR ++ "/t3_preprocessor.joblib") = false ∨
       fs (MODELS_DIR ++ "/t5_model.joblib") = false ∨
       fs (MODELS_DIR ++ "/t5_preprocessor.joblib") = false)) ∧
    (∀ e, use_demo_mode fs = false →
      predict_with_model fs models r tp = Except.error e →
      runPrediction fs models r tp =
        (predict_in_demo_mode r tp).map (fun q => (q, true))) := by
  constructor
  · unfold use_demo_mode check_models_exist
    cases h0 : fs MODELS_DIR <;>
      cases h1 : fs (MODELS_DIR ++ "/t3_model.joblib") <;>
      cases h2 : fs (MODELS_DIR ++ "/t3_preprocessor.joblib") <;>
      cases h3 : fs (MODELS_DIR ++ "/t5_model.joblib") <;>
      cases h4 : fs (MODELS_DIR ++ "/t5_preprocessor.joblib") <;>
      simp
  · intro e hdemo herr
    unfold runPrediction
    rw [hdemo, herr]
    simp

/-- Witness for C3's amended theorem: with every file present the demo flag
is off, yet the orchestration still answers with the demo-flagged heuristic
result because the model path fails (empty record, missing features). -/
theorem c3_demo_trigger_witness :
    runPrediction fsAll trivModels [] "T3" = some (17 / 5, true) := by
  have h := (c3_demo_trigger fsAll trivModels [] "T3").2
    (PredError.missingFeatures T3_IMPORTANT_FEATURES)
    (by norm_num +decide [use_demo_mode, check_models_exist, fsAll])
    (by norm_num +decide [predict_with_model, missing_features, required_features,
      strUpper, lookupVal, T3_IMPORTANT_FEATURES, model_path, preprocessor_path,
      strLower, MODELS_DIR, fsAll])
  rw [h]
  norm_num +decide [predict_in_demo_mode, getNumD, lookupVal, clamp08, pymin, pymax]

/-- C4: whenever a trained artifact file is absent, the orchestration's
returned score is exactly the heuristic's output on the same record and
timepoint, flagged as demo. -/
theorem c4_demo_equals_heuristic (fs : String → Bool)
    (models : String → ModelArtifacts) (r : PatientRecord) (tp : String) (q : ℚ)
    (habs : fs (MODELS_DIR ++ "/t3_model.joblib") = false ∨
            fs (MODELS_DIR ++ "/t3_preprocessor.joblib") = false ∨
            fs (MODELS_DIR ++ "/t5_model.joblib") = false ∨
            fs (MODELS_DIR ++ "/t5_preprocessor.joblib") = false)
    (hq : predict_in_demo_mode r tp = some q) :
    runPrediction fs models r tp = some (q, true) := by
  have hdemo : use_demo_mode fs = true := by
    unfold use_demo_mode check_models_exist
    cases h0 : fs MODELS_DIR
    · simp
    · rcases habs with h | h | h | h <;> simp [h]
  unfold runPrediction
  rw [hdemo, hq]
  simp

/-- Witness for C4: on the empty filesystem the orchestration returns the
heuristic's T3 output 17/5 on the empty record, flagged as demo. -/
theorem c4_demo_equals_heuristic_witness :
    runPrediction fsNone trivModels [] "T3" = some (17 / 5, true) :=
  c4_demo_equals_heuristic fsNone trivModels [] "T3" (17 / 5) (Or.inl rfl)
    (by norm_num +decide [predict_in_demo_mode, getNumD, lookupVal, clamp08, pymin, pymax])

/-- C5: for a valid timepoint whose artifacts are present, a record lacking
one or more required features makes `predict_with_model` fail with the
missing-features error, whose payload lists exactly the absent required keys
(every missing key, not only the first). -/
theorem c5_missing_features (fs : String → Bool) (models : String → ModelArtifacts)
    (r : PatientRecord) (tp : String)
    (htp : strUpper tp = "T3" ∨ strUpper tp = "T5")
    (hm : fs (model_path (strUpper tp)) = true)
    (hp : fs (preprocessor_path (strUpper tp)) = true)
    (hne : missing_features r (strUpper tp) ≠ []) :
    predict_with_model fs models r tp =
      Except.error (PredError.missingFeatures (missing_features r (strUpper tp))) ∧
    ∀ k, k ∈ missing_features r (strUpper tp) ↔
      (k ∈ required_features (strUpper tp) ∧ lookupVal r k = none) := by
  constructor
  · unfold predict_with_model
    rw [if_pos htp, hm, hp]
    simp only [Bool.and_self, if_true]
    rw [if_neg (by simpa [List.isEmpty_iff] using hne)]
  · intro k
    simp [missing_features, List.mem_filter, Option.isNone_iff_eq_none]

/-- Witness for C5: on the empty record at T3 the error payload is the full
T3 feature list, and membership in it coincides with absence. -/
theorem c5_missing_features_witness :
    predict_with_model fsAll trivModels [] "T3" =
      Except.error (PredError.missingFeatures (missing_features [] (strUpper "T3"))) ∧
    ∀ k, k ∈ missing_features [] (strUpper "T3") ↔
      (k ∈ required_features (strUpper "T3") ∧ lookupVal [] k = none) :=
  c5_missing_features fsAll trivModels [] "T3" (Or.inl (by decide)) rfl rfl (by decide)

/-- C6: on every record whose demo features are numeric when present
(including the empty record), the heuristic never fails on missing keys: it
still returns a score, and inserting the documented default for an absent
key — BMI_Current→25, AgePreOp→65, Pre-Op Pain→5, WalkPain→5 — leaves its
output unchanged, at either timepoint branch. -/
theorem c6_demo_defaults (r : PatientRecord) (tp : String) (hwt : WellTypedDemo r) :
    (predict_in_demo_mode r tp).isSome = true ∧
    (lookupVal r "BMI_Current" = none →
      predict_in_demo_mode (("BMI_Current", Value.num 25) :: r) tp =
        predict_in_demo_mode r tp) ∧
    (lookupVal r "AgePreOp" = none →
      predict_in_demo_mode (("AgePreOp", Value.num 65) :: r) tp =
        predict_in_demo_mode r tp) ∧
    (lookupVal r "Pre-Op Pain" = none →
      predict_in_demo_mode (("Pre-Op Pain", Value.num 5) :: r) tp =
        predict_in_demo_mode r tp) ∧
    (lookupVal r "WalkPain" = none →
      predict_in_demo_mode (("WalkPain", Value.num 5) :: r) tp =
        predict_in_demo_mode r tp) := by
  obtain ⟨bmi, hb⟩ := getNumD_isSome r "BMI_Current" 25 (hwt _ (by decide))
  obtain ⟨age, ha⟩ := getNumD_isSome r "AgePreOp" 65 (hwt _ (by decide))
  obtain ⟨preop, hp⟩ := getNumD_isSome r "Pre-Op Pain" 5 (hwt _ (by decide))
  obtain ⟨walk, hw⟩ := getNumD_isSome r "WalkPain" 5 (hwt _ (by decide))
  refine ⟨?_, ?_, ?_, ?_, ?_⟩
  · unfold predict_in_demo_mode
    split
    · rw [hb, ha, hp, hw]
      rfl
    · rw [hb, ha, hp]
      rfl
  · intro habs
    simp +decide [predict_in_demo_mode, getNumD, lookupVal, habs]
  · intro habs
    simp +decide [predict_in_demo_mode, getNumD, lookupVal, habs]
  · intro habs
    simp +decide [predict_in_demo_mode, getNumD, lookupVal, habs]
  · intro habs
    simp +decide [predict_in_demo_mode, getNumD, lookupVal, habs]

/-- Witness for C6 at the empty record and timepoint T3. -/
theorem c6_demo_defaults_witness :
    (predict_in_demo_mode [] "T3").isSome = true ∧
    predict_in_demo_mode [("BMI_Current", Value.num 25)] "T3" =
      predict_in_demo_mode [] "T3" :=
  have h := c6_demo_defaults [] "T3" (by intro k hk s; simp [lookupVal])
  ⟨h.1, h.2.1 rfl⟩

/-- C7: the heuristic reproduces the documented worked examples — T3 with
the default record gives 2.0 + 0.25 + 0.65 + 1.0 − 0.5 = 3.4, and T5 with
Approach = "Posterior" and the same defaults gives
1.5 + 0.2 + 0.325 + 0.75 − 0.5 = 2.275. -/
theorem c7_worked_examples :
    predict_in_demo_mode
      [("BMI_Current", Value.num 25), ("AgePreOp", Value.num 65),
       ("Pre-Op Pain", Value.num 5), ("WalkPain", Value.num 5)] "T3" =
      some (2.0 + 0.25 + 0.65 + 1.0 - 0.5) ∧
    (2.0 + 0.25 + 0.65 + 1.0 - 0.5 : ℚ) = 3.4 ∧
    predict_in_demo_mode
      [("Approach", Value.str "Posterior"), ("BMI_Current", Value.num 25),
       ("AgePreOp", Value.num 65), ("Pre-Op Pain", Value.num 5),
       ("WalkPain", Value.num 5)] "T5" =
      some (1.5 + 0.2 + 0.325 + 0.75 - 0.5) ∧
    (1.5 + 0.2 + 0.325 + 0.75 - 0.5 : ℚ) = 2.275 := by
  refine ⟨?_, by norm_num, ?_, by norm_num⟩ <;>
    norm_num +decide [predict_in_demo_mode, getNumD, lookupVal, clamp08, pymin, pymax]

/-- C8: the categorical label uses the fixed thresholds — a score of exactly
2 maps to "minimal", exactly 4 to "mild", exactly 6 to "moderate", and any
score above 6 to "severe". -/
theorem c8_interpret_thresholds (q : ℚ) (h : 6 < q) :
    interpret_score 2 = "minimal" ∧ interpret_score 4 = "mild" ∧
    interpret_score 6 = "moderate" ∧ interpret_score q = "severe" := by
  refine ⟨by norm_num [interpret_score], by norm_num [interpret_score],
    by norm_num [interpret_score], ?_⟩
  unfold interpret_score
  rw [if_neg (by linarith), if_neg (by linarith), if_neg (by linarith)]

/-- Witness for C8 at the concrete score 7. -/
theorem c8_interpret_thresholds_witness :
    interpret_score 2 = "minimal" ∧ interpret_score 4 = "mild" ∧
    interpret_score 6 = "moderate" ∧ interpret_score 7 = "severe" :=
  c8_interpret_thresholds 7 (by norm_num)

/-- C9: `predict_with_model` uppercases the timepoint before validation, so
the lowercase inputs "t3" and "t5" are accepted and treated identically to
"T3" and "T5" — same feature list, same artifact files, same result. -/
theorem c9_lowercase_timepoint (fs : String → Bool)
    (models : String → ModelArtifacts) (r : PatientRecord) :
    predict_with_model fs models r "t3" = predict_with_model fs models r "T3" ∧
    predict_with_model fs models r "t5" = predict_with_model fs models r "T5" := by
  constructor
  · unfold predict_with_model
    rw [(by decide : strUpper "t3" = "T3"), (by decide : strUpper "T3" = "T3")]
  · unfold predict_with_model
    rw [(by decide : strUpper "t5" = "T5"), (by decide : strUpper "T5" = "T5")]

/-- C10: at timepoint T3 with every other feature fixed, the heuristic's
output is monotonically non-increasing in the WalkPain value: a higher
reported walking pain never yields a higher predicted score. -/
theorem c10_walkpain_monotone (r : PatientRecord) (w1 w2 q1 q2 : ℚ)
    (hw : w1 ≤ w2)
    (h1 : predict_in_demo_mode (("WalkPain", Value.num w1) :: r) "T3" = some q1)
    (h2 : predict_in_demo_mode (("WalkPain", Value.num w2) :: r) "T3" = some q2) :
    q2 ≤ q1 := by
  rw [demoT3_walk] at h1 h2
  split at h1
  · rename_i bmi age preop hb ha hp
    rw [hb, ha, hp] at h2
    have e2 : some (clamp08 (2.0 + 0.01 * bmi + 0.01 * age + 0.2 * preop - 0.1 * w2)) =
        some q2 := h2
    injection h1 with h1
    injection e2 with e2
    rw [← h1, ← e2]
    exact clamp08_mono (by linarith)
  · exact Option.noConfusion h1

/-- Witness for C10: raising WalkPain from 0 to 10 on the otherwise-empty
record lowers the T3 heuristic score from 3.9 to 2.9. -/
theorem c10_walkpain_monotone_witness : (29 / 10 : ℚ) ≤ 39 / 10 :=
  c10_walkpain_monotone [] 0 10 (39 / 10) (29 / 10) (by norm_num)
    (by norm_num +decide [predict_in_demo_mode, getNumD, lookupVal, clamp08, pymin, pymax])
    (by norm_num +decide [predict_in_demo_mode, getNumD, lookupVal, clamp08, pymin, pymax])

end HipPain
